import Mathlib

/-!
Shallow embedding of `protocol/message_validator.go` (status-go message
validation) and proofs of the specification's claims about it.

Go `error` results are modelled as `Option GoErr` (`none` = the Go `nil`
error, `some e` = a failure). `uint64` values are modelled as `Nat`;
theorems about the clock check carry the `< 2 ^ 64` bounds explicitly where
the claim speaks of unsigned 64-bit inputs. `big.Int` arithmetic in
`validateClockValue` is exact, so it is embedded as arithmetic on `Int`.
-/

/-- A Go error value as the validators produce them: `msg` is an
`errors.New` error carrying its message; `numError` is a
`strconv.NumError` (function name, the unparsable input, and the wrapped
error text), as returned by `strconv.ParseFloat`. -/
inductive GoErr where
  | msg (s : String)
  | numError (fn : String) (num : String) (err : String)
  deriving DecidableEq, Repr

/-- `maxWhisperDriftMs` from the source: how many milliseconds the clock
value may differ from the whisper timestamp. -/
def maxWhisperDriftMs : Nat := 120000

/-- Embeds `validateClockValue` (message_validator.go lines 17-32). The Go
code computes the difference of the two `uint64` inputs with `big.Int`
(exact), takes the absolute value and converts back with `Uint64()`; for
inputs below `2 ^ 64` the absolute difference is below `2 ^ 64`, so the
conversion is exact and the whole computation is `|clock - w|` over ℤ. -/
def validateClockValue (clock whisperTimestamp : Nat) : Option GoErr :=
  if clock = 0 then
    some (GoErr.msg "clock can't be 0")
  else
    let difference : Nat := ((clock : Int) - (whisperTimestamp : Int)).natAbs
    if difference > maxWhisperDriftMs then
      some (GoErr.msg "clock value can't be too different from whisper timestamp")
    else
      none

/-- A membership update event; only its `ClockValue` (`uint64`) is read by
the validator. -/
structure MembershipUpdateEvent where
  ClockValue : Nat

/-- A membership update message: the ordered sequence of its events. -/
structure MembershipUpdateMessage where
  Events : List MembershipUpdateEvent

/-- The loop body of `ValidateMembershipUpdateMessage` (lines 36-42):
return the drift error at the first event whose clock is more than
`maxWhisperDriftMs` ahead of `timeNowMs`. Under the guard
`e.ClockValue > timeNowMs` the Go `uint64` subtraction
`e.ClockValue - timeNowMs` cannot wrap, so truncated `Nat` subtraction
embeds it exactly. -/
def membershipEventsClockCheck (timeNowMs : Nat) : List MembershipUpdateEvent → Option GoErr
  | [] => none
  | e :: rest =>
    if e.ClockValue > timeNowMs ∧ e.ClockValue - timeNowMs > maxWhisperDriftMs then
      some (GoErr.msg "clock value can't be too different from whisper timestamp")
    else
      membershipEventsClockCheck timeNowMs rest

/-- Embeds `ValidateMembershipUpdateMessage` (lines 34-44). -/
def ValidateMembershipUpdateMessage (message : MembershipUpdateMessage) (timeNowMs : Nat) : Option GoErr :=
  membershipEventsClockCheck timeNowMs message.Events

/-- The whitespace set of Go's `unicode.IsSpace` on the Latin-1 range:
tab, newline, vertical tab, form feed, carriage return, space, NEL and
no-break space. Unicode White_Space code points above U+00FF, which Go
also trims, are not modelled; no claim touches them. -/
def isGoSpace (c : Char) : Bool :=
  c = '\t' || c = '\n' || c = Char.ofNat 11 || c = Char.ofNat 12 ||
    c = '\r' || c = ' ' || c = Char.ofNat 133 || c = Char.ofNat 160

/-- Models Go `strings.TrimSpace`: remove leading and trailing whitespace. -/
def trimSpace (s : String) : String :=
  String.mk (((s.data.dropWhile isGoSpace).reverse.dropWhile isGoSpace).reverse)

/-- Drops one leading `+` or `-` sign, as Go's float parser does. -/
def dropSign : List Char → List Char
  | [] => []
  | c :: cs => if c = '+' || c = '-' then cs else c :: cs

/-- The exponent part after `e`/`E` in Go float syntax: an optional sign
followed by at least one digit. -/
def goFloatExpPart (cs : List Char) : Bool :=
  let cs := dropSign cs
  !cs.isEmpty && cs.all (fun c => c.isDigit)

/-- What may follow a decimal mantissa in Go float syntax: nothing, or an
exponent part; either way at least one mantissa digit must have been seen. -/
def goFloatAfterMantissa (sawDigits : Bool) : List Char → Bool
  | [] => sawDigits
  | c :: rest => (c = 'e' || c = 'E') && sawDigits && goFloatExpPart rest

/-- A decimal number in Go float syntax: optional sign, digits with at most
one decimal point and at least one digit, optional exponent. -/
def goFloatNumber (cs : List Char) : Bool :=
  let cs := dropSign cs
  let p1 := cs.span (fun c => c.isDigit)
  match p1.2 with
  | '.' :: r =>
    let p2 := r.span (fun c => c.isDigit)
    goFloatAfterMantissa (!p1.1.isEmpty || !p2.1.isEmpty) p2.2
  | r => goFloatAfterMantissa (!p1.1.isEmpty) r

/-- The special values Go's float parser accepts: case-insensitive
`inf`/`infinity` with an optional sign, and unsigned `nan`. -/
def goFloatSpecial (cs : List Char) : Bool :=
  let l := cs.map Char.toLower
  l = "nan".data || dropSign l = "inf".data || dropSign l = "infinity".data

/-- Modelled from the spec: whether Go's `strconv.ParseFloat(s, 64)`
succeeds. `ParseFloat` is the Go standard library, not part of this
repository; the spec says numeric fields use standard decimal
floating-point parsing. This model accepts Go's decimal and special-value
syntax; hexadecimal floats and digit-separating underscores (also accepted
by Go) and Go's range errors on syntactically valid input are not
modelled, and no claim depends on them. -/
def goParseFloatOk (s : String) : Bool :=
  goFloatSpecial s.data || goFloatNumber s.data

/-- The error result of Go's `strconv.ParseFloat(s, 64)`: `nil` on
success, else the `NumError` wrapping `ErrSyntax` (whose `Error()` renders
as `strconv.ParseFloat: parsing s: invalid syntax`). -/
def strconvParseFloatErr (s : String) : Option GoErr :=
  if goParseFloatOk s then none
  else some (GoErr.numError "ParseFloat" s "invalid syntax")

/-- The `protobuf.PairInstallation` fields the validator reads. -/
structure PairInstallation where
  Clock : Nat
  Name : String
  DeviceType : String
  InstallationId : String

/-- Embeds `ValidateReceivedPairInstallation` (lines 46-63). -/
def ValidateReceivedPairInstallation (message : PairInstallation) (whisperTimestamp : Nat) : Option GoErr :=
  match validateClockValue message.Clock whisperTimestamp with
  | some err => some err
  | none =>
    if (trimSpace message.Name).length = 0 then
      some (GoErr.msg "name can't be empty")
    else if (trimSpace message.DeviceType).length = 0 then
      some (GoErr.msg "device type can't be empty")
    else if (trimSpace message.InstallationId).length = 0 then
      some (GoErr.msg "installationId can't be empty")
    else
      none

/-- The `protobuf.SendTransaction` fields the validator reads; `Signature`
is a Go byte slice, `none` embeds the `nil` slice. -/
structure SendTransaction where
  Clock : Nat
  TransactionHash : String
  Signature : Option (List Nat)

/-- Embeds `ValidateReceivedSendTransaction` (lines 65-79). -/
def ValidateReceivedSendTransaction (message : SendTransaction) (whisperTimestamp : Nat) : Option GoErr :=
  match validateClockValue message.Clock whisperTimestamp with
  | some err => some err
  | none =>
    if (trimSpace message.TransactionHash).length = 0 then
      some (GoErr.msg "transaction hash can't be empty")
    else if message.Signature = none then
      some (GoErr.msg "signature can't be nil")
    else
      none

/-- The `protobuf.RequestAddressForTransaction` fields the validator reads. -/
structure RequestAddressForTransaction where
  Clock : Nat
  Value : String

/-- Embeds `ValidateReceivedRequestAddressForTransaction` (lines 81-96). -/
def ValidateReceivedRequestAddressForTransaction (message : RequestAddressForTransaction) (whisperTimestamp : Nat) : Option GoErr :=
  match validateClockValue message.Clock whisperTimestamp with
  | some err => some err
  | none =>
    if (trimSpace message.Value).length = 0 then
      some (GoErr.msg "value can't be empty")
    else
      strconvParseFloatErr message.Value

/-- The `protobuf.RequestTransaction` fields the validator reads. -/
structure RequestTransaction where
  Clock : Nat
  Value : String
  Address : String

/-- Embeds `ValidateReceivedRequestTransaction` (lines 98-117): clock
check, then `Value` non-blank, then `Address` non-blank, then
`strconv.ParseFloat` on `Value` — in that source order. -/
def ValidateReceivedRequestTransaction (message : RequestTransaction) (whisperTimestamp : Nat) : Option GoErr :=
  match validateClockValue message.Clock whisperTimestamp with
  | some err => some err
  | none =>
    if (trimSpace message.Value).length = 0 then
      some (GoErr.msg "value can't be empty")
    else if (trimSpace message.Address).length = 0 then
      some (GoErr.msg "address can't be empty")
    else
      strconvParseFloatErr message.Value

/-- The `protobuf.AcceptRequestAddressForTransaction` fields the validator
reads. -/
structure AcceptRequestAddressForTransaction where
  Clock : Nat
  Id : String
  Address : String

/-- Embeds `ValidateReceivedAcceptRequestAddressForTransaction` (lines
119-134): the `Id` check uses `len(message.Id)` with no trimming. -/
def ValidateReceivedAcceptRequestAddressForTransaction (message : AcceptRequestAddressForTransaction) (whisperTimestamp : Nat) : Option GoErr :=
  match validateClockValue message.Clock whisperTimestamp with
  | some err => some err
  | none =>
    if message.Id.length = 0 then
      some (GoErr.msg "messageID can't be empty")
    else if (trimSpace message.Address).length = 0 then
      some (GoErr.msg "address can't be empty")
    else
      none

/-- The `protobuf.DeclineRequestAddressForTransaction` fields the
validator reads. -/
structure DeclineRequestAddressForTransaction where
  Clock : Nat
  Id : String

/-- Embeds `ValidateReceivedDeclineRequestAddressForTransaction` (lines
136-146). -/
def ValidateReceivedDeclineRequestAddressForTransaction (message : DeclineRequestAddressForTransaction) (whisperTimestamp : Nat) : Option GoErr :=
  match validateClockValue message.Clock whisperTimestamp with
  | some err => some err
  | none =>
    if message.Id.length = 0 then
      some (GoErr.msg "messageID can't be empty")
    else
      none

/-- The `protobuf.DeclineRequestTransaction` fields the validator reads. -/
structure DeclineRequestTransaction where
  Clock : Nat
  Id : String

/-- Embeds `ValidateReceivedDeclineRequestTransaction` (lines 148-158). -/
def ValidateReceivedDeclineRequestTransaction (message : DeclineRequestTransaction) (whisperTimestamp : Nat) : Option GoErr :=
  match validateClockValue message.Clock whisperTimestamp with
  | some err => some err
  | none =>
    if message.Id.length = 0 then
      some (GoErr.msg "messageID can't be empty")
    else
      none

/-- Modelled from the spec: the `protobuf.ChatMessage_ContentType` enum
(its generated Go declaration is outside the staged source); the spec
names `UNKNOWN_CONTENT_TYPE`, `TRANSACTION_COMMAND` and `STICKER` as the
values the validator tests against. -/
inductive ChatMessage_ContentType where
  | UNKNOWN_CONTENT_TYPE
  | TEXT
  | STICKER
  | STATUS
  | EMOJI
  | TRANSACTION_COMMAND
  | SYSTEM_MESSAGE_CONTENT_PRIVATE_GROUP
  deriving DecidableEq, Repr

/-- Modelled from the spec: the `protobuf.ChatMessage_MessageType` enum
(its generated Go declaration is outside the staged source); the spec
names `UNKNOWN_MESSAGE_TYPE` and `SYSTEM_MESSAGE_PRIVATE_GROUP` as the
values the validator tests against. -/
inductive ChatMessage_MessageType where
  | UNKNOWN_MESSAGE_TYPE
  | ONE_TO_ONE
  | PUBLIC_GROUP
  | PRIVATE_GROUP
  | SYSTEM_MESSAGE_PRIVATE_GROUP
  deriving DecidableEq, Repr

/-- The sticker sub-message; the validator reads only its `Hash`. -/
structure StickerMessage where
  Hash : String
  deriving DecidableEq, Repr

/-- Modelled from the spec: `ChatMessage`'s protobuf `oneof` payload
wrapper (generated Go code outside the staged source). The payload may be
absent (`Option.none` embeds the `nil` interface), hold the sticker
sub-message, or hold some other variant from which `GetSticker` extracts
nothing. -/
inductive ChatMessagePayload where
  | sticker (s : StickerMessage)
  | nonStickerPayload
  deriving DecidableEq, Repr

/-- The `protobuf.ChatMessage` fields the validator reads. -/
structure ChatMessage where
  Clock : Nat
  Timestamp : Nat
  Text : String
  ChatId : String
  ContentType : ChatMessage_ContentType
  MessageType : ChatMessage_MessageType
  Payload : Option ChatMessagePayload

/-- Modelled from the spec: the generated `GetSticker` accessor — the
sticker sub-message extracted from the payload, absent when the payload is
absent or holds a different variant. -/
def ChatMessage.GetSticker (message : ChatMessage) : Option StickerMessage :=
  match message.Payload with
  | some (ChatMessagePayload.sticker s) => some s
  | _ => none

/-- The STICKER branch of `ValidateReceivedChatMessage` (lines 189-201):
outer payload present, sticker sub-message present, sticker hash
non-empty. -/
def stickerContentCheck (message : ChatMessage) : Option GoErr :=
  match message.Payload with
  | none => some (GoErr.msg "no sticker content")
  | some _ =>
    match message.GetSticker with
    | none => some (GoErr.msg "no sticker content")
    | some sticker =>
      if sticker.Hash.length = 0 then
        some (GoErr.msg "sticker hash not set")
      else
        none

/-- Embeds `ValidateReceivedChatMessage` (lines 160-202). -/
def ValidateReceivedChatMessage (message : ChatMessage) (whisperTimestamp : Nat) : Option GoErr :=
  match validateClockValue message.Clock whisperTimestamp with
  | some err => some err
  | none =>
    if message.Timestamp = 0 then
      some (GoErr.msg "timestamp can't be 0")
    else if (trimSpace message.Text).length = 0 then
      some (GoErr.msg "text can't be empty")
    else if message.ChatId.length = 0 then
      some (GoErr.msg "chatId can't be empty")
    else if message.ContentType = ChatMessage_ContentType.UNKNOWN_CONTENT_TYPE then
      some (GoErr.msg "unknown content type")
    else if message.ContentType = ChatMessage_ContentType.TRANSACTION_COMMAND then
      some (GoErr.msg "can't receive request address for transaction from others")
    else if message.MessageType = ChatMessage_MessageType.UNKNOWN_MESSAGE_TYPE ∨ message.MessageType = ChatMessage_MessageType.SYSTEM_MESSAGE_PRIVATE_GROUP then
      some (GoErr.msg "unknown message type")
    else if message.ContentType = ChatMessage_ContentType.STICKER then
      stickerContentCheck message
    else
      none

/-- A concrete STICKER chat message whose sticker hash is empty, used to
instantiate the sticker-layer theorem. -/
def stickerHashlessChatMessage : ChatMessage :=
  { Clock := 1000, Timestamp := 5, Text := "hi", ChatId := "c1",
    ContentType := ChatMessage_ContentType.STICKER,
    MessageType := ChatMessage_MessageType.ONE_TO_ONE,
    Payload := some (ChatMessagePayload.sticker { Hash := "" }) }

/-! ## Helper lemmas shared by the claim theorems -/

/-- The membership loop reports the drift error exactly when some event's
clock is more than 120000 ahead of the reference. -/
theorem membershipEventsClockCheck_some_iff (timeNowMs : Nat) (events : List MembershipUpdateEvent) :
    membershipEventsClockCheck timeNowMs events =
        some (GoErr.msg "clock value can't be too different from whisper timestamp")
      ↔ ∃ e ∈ events, timeNowMs < e.ClockValue ∧ 120000 < e.ClockValue - timeNowMs := by
  induction events with
  | nil => simp [membershipEventsClockCheck]
  | cons e rest ih =>
    by_cases h : timeNowMs < e.ClockValue ∧ 120000 < e.ClockValue - timeNowMs
    · simp [membershipEventsClockCheck, maxWhisperDriftMs, h]
    · simp [membershipEventsClockCheck, maxWhisperDriftMs, h, ih]

/-- The membership loop either succeeds or returns the drift error. -/
theorem membershipEventsClockCheck_none_or_some (timeNowMs : Nat) (events : List MembershipUpdateEvent) :
    membershipEventsClockCheck timeNowMs events = none
    ∨ membershipEventsClockCheck timeNowMs events =
        some (GoErr.msg "clock value can't be too different from whisper timestamp") := by
  induction events with
  | nil => exact Or.inl rfl
  | cons e rest ih =>
    by_cases h : timeNowMs < e.ClockValue ∧ 120000 < e.ClockValue - timeNowMs
    · exact Or.inr (by simp [membershipEventsClockCheck, maxWhisperDriftMs, h])
    · simpa [membershipEventsClockCheck, maxWhisperDriftMs, h] using ih

/-- The membership loop succeeds exactly when no event's clock is more than
120000 ahead of the reference. -/
theorem membershipEventsClockCheck_none_iff (timeNowMs : Nat) (events : List MembershipUpdateEvent) :
    membershipEventsClockCheck timeNowMs events = none
      ↔ ∀ e ∈ events, timeNowMs < e.ClockValue → e.ClockValue - timeNowMs ≤ 120000 := by
  constructor
  · intro hnone e he hlt
    by_contra hgt
    have hsome :=
      (membershipEventsClockCheck_some_iff timeNowMs events).mpr ⟨e, he, hlt, by omega⟩
    rw [hnone] at hsome
    exact Option.noConfusion hsome
  · intro hall
    rcases membershipEventsClockCheck_none_or_some timeNowMs events with h | h
    · exact h
    · exfalso
      rcases (membershipEventsClockCheck_some_iff timeNowMs events).mp h with ⟨e, he, hlt, hgt⟩
      exact absurd (hall e he hlt) (by omega)

/-- With the clock check passing, `ValidateReceivedChatMessage` is its chain
of field checks. -/
theorem ValidateReceivedChatMessage_eq (c : ChatMessage) (w : Nat)
    (hc : validateClockValue c.Clock w = none) :
    ValidateReceivedChatMessage c w =
      (if c.Timestamp = 0 then some (GoErr.msg "timestamp can't be 0")
       else if (trimSpace c.Text).length = 0 then some (GoErr.msg "text can't be empty")
       else if c.ChatId.length = 0 then some (GoErr.msg "chatId can't be empty")
       else if c.ContentType = ChatMessage_ContentType.UNKNOWN_CONTENT_TYPE then
         some (GoErr.msg "unknown content type")
       else if c.ContentType = ChatMessage_ContentType.TRANSACTION_COMMAND then
         some (GoErr.msg "can't receive request address for transaction from others")
       else if c.MessageType = ChatMessage_MessageType.UNKNOWN_MESSAGE_TYPE
           ∨ c.MessageType = ChatMessage_MessageType.SYSTEM_MESSAGE_PRIVATE_GROUP then
         some (GoErr.msg "unknown message type")
       else if c.ContentType = ChatMessage_ContentType.STICKER then
         stickerContentCheck c
       else
         none) := by
  simp only [ValidateReceivedChatMessage, hc]

/-- The sticker branch returns one of exactly three results. -/
theorem stickerContentCheck_cases (c : ChatMessage) :
    stickerContentCheck c = none
    ∨ stickerContentCheck c = some (GoErr.msg "no sticker content")
    ∨ stickerContentCheck c = some (GoErr.msg "sticker hash not set") := by
  unfold stickerContentCheck
  rcases hp : c.Payload with _ | p
  · simp
  · rcases hs : c.GetSticker with _ | s
    · simp
    · by_cases hh : s.Hash.length = 0 <;> simp [hh]

/-! ## Claim theorems -/

/-- C1: for unsigned 64-bit clock and reference values, `validateClockValue`
fails with the zero-clock error iff `clock = 0`; for a nonzero clock it fails
with the drift error iff the absolute difference `|clock - reference|`,
computed exactly over ℤ, exceeds 120000, and succeeds in every other case,
a difference of exactly 120000 included. -/
theorem validateClockValue_spec (clock reference : Nat)
    (hclock : clock < 2 ^ 64) (href : reference < 2 ^ 64) :
    (validateClockValue clock reference = some (GoErr.msg "clock can't be 0") ↔ clock = 0)
    ∧ (clock ≠ 0 →
        (validateClockValue clock reference =
            some (GoErr.msg "clock value can't be too different from whisper timestamp")
          ↔ 120000 < ((clock : Int) - (reference : Int)).natAbs))
    ∧ (clock ≠ 0 → ((clock : Int) - (reference : Int)).natAbs ≤ 120000 →
        validateClockValue clock reference = none) := by
  unfold validateClockValue maxWhisperDriftMs
  by_cases h0 : clock = 0
  · subst h0
    simp
  · simp only [if_neg h0]
    by_cases hd : 120000 < ((clock : Int) - (reference : Int)).natAbs
    · simp [hd, h0]
    · simp [hd, h0]

/-- Witness for C1 at clock 121001, reference 1000 (drift 120001) — both
inputs below `2 ^ 64`. -/
theorem validateClockValue_spec_witness :
    (validateClockValue 121001 1000 = some (GoErr.msg "clock can't be 0") ↔ (121001 : Nat) = 0)
    ∧ ((121001 : Nat) ≠ 0 →
        (validateClockValue 121001 1000 =
            some (GoErr.msg "clock value can't be too different from whisper timestamp")
          ↔ 120000 < (((121001 : Nat) : Int) - ((1000 : Nat) : Int)).natAbs))
    ∧ ((121001 : Nat) ≠ 0 → (((121001 : Nat) : Int) - ((1000 : Nat) : Int)).natAbs ≤ 120000 →
        validateClockValue 121001 1000 = none) :=
  validateClockValue_spec 121001 1000 (by decide) (by decide)

/-- C2: `ValidateMembershipUpdateMessage` fails — always with the drift
error — iff some event's clock exceeds the reference by more than 120000,
and succeeds iff no event does; so an event with clock at or behind the
reference is never rejected, and a zero event clock is not rejected by a
zero-clock rule. -/
theorem ValidateMembershipUpdateMessage_spec (message : MembershipUpdateMessage) (timeNowMs : Nat) :
    (ValidateMembershipUpdateMessage message timeNowMs =
        some (GoErr.msg "clock value can't be too different from whisper timestamp")
      ↔ ∃ e ∈ message.Events, timeNowMs < e.ClockValue ∧ 120000 < e.ClockValue - timeNowMs)
    ∧ (ValidateMembershipUpdateMessage message timeNowMs = none
      ↔ ∀ e ∈ message.Events, timeNowMs < e.ClockValue → e.ClockValue - timeNowMs ≤ 120000) :=
  ⟨membershipEventsClockCheck_some_iff timeNowMs message.Events,
   membershipEventsClockCheck_none_iff timeNowMs message.Events⟩

/-- C9: a membership update message with no events passes validation for
every reference timestamp, reference 0 included. -/
theorem ValidateMembershipUpdateMessage_empty_events (timeNowMs : Nat) :
    ValidateMembershipUpdateMessage { Events := [] } timeNowMs = none
    ∧ ValidateMembershipUpdateMessage { Events := [] } 0 = none :=
  ⟨rfl, rfl⟩

/-- C5 counterexample: the message with Clock 1000, Value "abc" (non-blank,
unparseable) and blank Address, validated at reference 1000, is rejected
with the blank-address error and not with the Value parse failure — so the
claimed check order (Value non-blank, Value parses, Address non-blank) does
not match the code, which tests Address before parsing Value. -/
theorem ValidateReceivedRequestTransaction_order_counterexample :
    ValidateReceivedRequestTransaction { Clock := 1000, Value := "abc", Address := "" } 1000 =
        some (GoErr.msg "address can't be empty")
    ∧ ValidateReceivedRequestTransaction { Clock := 1000, Value := "abc", Address := "" } 1000 ≠
        strconvParseFloatErr "abc"
    ∧ strconvParseFloatErr "abc" = some (GoErr.numError "ParseFloat" "abc" "invalid syntax") := by
  decide

/-- C5 amended: with the clock check passing, the field checks of
`ValidateReceivedRequestTransaction` run in the source order — Value
non-blank, then Address non-blank, then Value parses as a decimal number —
short-circuiting at the first failure; in particular, for a message whose
Value is non-blank but unparseable and whose Address is blank, the returned
error is the blank-address failure, and the parse error is returned only
when both Value and Address are non-blank. -/
theorem ValidateReceivedRequestTransaction_check_order (m : RequestTransaction) (w : Nat)
    (hclock : validateClockValue m.Clock w = none) :
    ((trimSpace m.Value).length = 0 →
        ValidateReceivedRequestTransaction m w = some (GoErr.msg "value can't be empty"))
    ∧ ((trimSpace m.Value).length ≠ 0 → (trimSpace m.Address).length = 0 →
        ValidateReceivedRequestTransaction m w = some (GoErr.msg "address can't be empty"))
    ∧ ((trimSpace m.Value).length ≠ 0 → (trimSpace m.Address).length ≠ 0 →
        ValidateReceivedRequestTransaction m w = strconvParseFloatErr m.Value) := by
  simp only [ValidateReceivedRequestTransaction, hclock]
  exact ⟨fun hv => by simp [hv], fun hv ha => by simp [hv, ha], fun hv ha => by simp [hv, ha]⟩

/-- Witness for C5's amended theorem at Clock 1000, Value "abc", Address ""
and reference 1000. -/
theorem ValidateReceivedRequestTransaction_check_order_witness :
    ((trimSpace "abc").length = 0 →
        ValidateReceivedRequestTransaction { Clock := 1000, Value := "abc", Address := "" } 1000 =
          some (GoErr.msg "value can't be empty"))
    ∧ ((trimSpace "abc").length ≠ 0 → (trimSpace "").length = 0 →
        ValidateReceivedRequestTransaction { Clock := 1000, Value := "abc", Address := "" } 1000 =
          some (GoErr.msg "address can't be empty"))
    ∧ ((trimSpace "abc").length ≠ 0 → (trimSpace "").length ≠ 0 →
        ValidateReceivedRequestTransaction { Clock := 1000, Value := "abc", Address := "" } 1000 =
          strconvParseFloatErr "abc") :=
  ValidateReceivedRequestTransaction_check_order { Clock := 1000, Value := "abc", Address := "" } 1000
    (by decide)

/-- C6: with the clock check passing and a non-blank Value, the
request-address validator returns exactly the error of the float parse when
Value fails to parse — the parser's own `NumError`, never an `errors.New`
message — and succeeds when Value parses; "1.5" parses. -/
theorem ValidateReceivedRequestAddressForTransaction_parse (m : RequestAddressForTransaction) (w : Nat)
    (hclock : validateClockValue m.Clock w = none)
    (hval : (trimSpace m.Value).length ≠ 0) :
    (∀ e, strconvParseFloatErr m.Value = some e →
        ValidateReceivedRequestAddressForTransaction m w = some e
        ∧ e = GoErr.numError "ParseFloat" m.Value "invalid syntax"
        ∧ ∀ s, e ≠ GoErr.msg s)
    ∧ (strconvParseFloatErr m.Value = none →
        ValidateReceivedRequestAddressForTransaction m w = none)
    ∧ strconvParseFloatErr "1.5" = none := by
  refine ⟨fun e he => ?_, fun he => ?_, by decide⟩
  · have hres : ValidateReceivedRequestAddressForTransaction m w = some e := by
      simp [ValidateReceivedRequestAddressForTransaction, hclock, hval, he]
    have hne : e = GoErr.numError "ParseFloat" m.Value "invalid syntax" := by
      by_cases hok : goParseFloatOk m.Value
      · simp [strconvParseFloatErr, hok] at he
      · simp [strconvParseFloatErr, hok] at he
        exact he.symm
    exact ⟨hres, hne, fun s hcontra => by simp [hne] at hcontra⟩
  · simp [ValidateReceivedRequestAddressForTransaction, hclock, hval, he]

/-- Witness for C6 at Clock 1000, Value "abc" and reference 1000. -/
theorem ValidateReceivedRequestAddressForTransaction_parse_witness :
    (∀ e, strconvParseFloatErr "abc" = some e →
        ValidateReceivedRequestAddressForTransaction { Clock := 1000, Value := "abc" } 1000 = some e
        ∧ e = GoErr.numError "ParseFloat" "abc" "invalid syntax"
        ∧ ∀ s, e ≠ GoErr.msg s)
    ∧ (strconvParseFloatErr "abc" = none →
        ValidateReceivedRequestAddressForTransaction { Clock := 1000, Value := "abc" } 1000 = none)
    ∧ strconvParseFloatErr "1.5" = none :=
  ValidateReceivedRequestAddressForTransaction_parse { Clock := 1000, Value := "abc" } 1000
    (by decide) (by decide)

/-- C7: every identifier check under the non-empty policy — the `Id` of
AcceptRequestAddressForTransaction, DeclineRequestAddressForTransaction and
DeclineRequestTransaction, and the `ChatId` of ChatMessage — fails with its
empty-field error iff the value has length zero, with no trimming: a
whitespace-only value passes the check. -/
theorem nonEmptyIdChecks_no_trim
    (a : AcceptRequestAddressForTransaction) (d : DeclineRequestAddressForTransaction)
    (r : DeclineRequestTransaction) (c : ChatMessage) (w : Nat)
    (ha : validateClockValue a.Clock w = none)
    (hd : validateClockValue d.Clock w = none)
    (hr : validateClockValue r.Clock w = none)
    (hc : validateClockValue c.Clock w = none)
    (hts : c.Timestamp ≠ 0)
    (htext : (trimSpace c.Text).length ≠ 0) :
    (ValidateReceivedAcceptRequestAddressForTransaction a w =
        some (GoErr.msg "messageID can't be empty") ↔ a.Id.length = 0)
    ∧ (ValidateReceivedDeclineRequestAddressForTransaction d w =
        some (GoErr.msg "messageID can't be empty") ↔ d.Id.length = 0)
    ∧ (ValidateReceivedDeclineRequestTransaction r w =
        some (GoErr.msg "messageID can't be empty") ↔ r.Id.length = 0)
    ∧ (ValidateReceivedChatMessage c w =
        some (GoErr.msg "chatId can't be empty") ↔ c.ChatId.length = 0) := by
  refine ⟨?_, ?_, ?_, ?_⟩
  · simp only [ValidateReceivedAcceptRequestAddressForTransaction, ha]
    by_cases hid : a.Id.length = 0
    · simp [hid]
    · by_cases haddr : (trimSpace a.Address).length = 0 <;> simp [hid, haddr]
  · simp only [ValidateReceivedDeclineRequestAddressForTransaction, hd]
    by_cases hid : d.Id.length = 0 <;> simp [hid]
  · simp only [ValidateReceivedDeclineRequestTransaction, hr]
    by_cases hid : r.Id.length = 0 <;> simp [hid]
  · rw [ValidateReceivedChatMessage_eq c w hc]
    simp only [if_neg hts, if_neg htext]
    by_cases hid : c.ChatId.length = 0
    · simp [hid]
    · simp only [if_neg hid]
      by_cases h1 : c.ContentType = ChatMessage_ContentType.UNKNOWN_CONTENT_TYPE
      · simp [h1, hid]
      · by_cases h2 : c.ContentType = ChatMessage_ContentType.TRANSACTION_COMMAND
        · simp [h1, h2, hid]
        · by_cases h3 : c.MessageType = ChatMessage_MessageType.UNKNOWN_MESSAGE_TYPE
              ∨ c.MessageType = ChatMessage_MessageType.SYSTEM_MESSAGE_PRIVATE_GROUP
          · simp [h1, h2, h3, hid]
          · by_cases h4 : c.ContentType = ChatMessage_ContentType.STICKER
            · simp only [if_neg h1, if_neg h2, if_neg h3, if_pos h4]
              rcases stickerContentCheck_cases c with h | h | h <;> simp [h, hid]
            · simp [h1, h2, h3, h4, hid]

/-- Witness for C7: whitespace-only identifiers (and ChatId " ") are not
rejected by the empty-field checks at clock 1000, reference 1000. -/
theorem nonEmptyIdChecks_no_trim_witness :
    (ValidateReceivedAcceptRequestAddressForTransaction
        { Clock := 1000, Id := " ", Address := "addr" } 1000 =
        some (GoErr.msg "messageID can't be empty") ↔ (" " : String).length = 0)
    ∧ (ValidateReceivedDeclineRequestAddressForTransaction { Clock := 1000, Id := " " } 1000 =
        some (GoErr.msg "messageID can't be empty") ↔ (" " : String).length = 0)
    ∧ (ValidateReceivedDeclineRequestTransaction { Clock := 1000, Id := " " } 1000 =
        some (GoErr.msg "messageID can't be empty") ↔ (" " : String).length = 0)
    ∧ (ValidateReceivedChatMessage
        { Clock := 1000, Timestamp := 5, Text := "hi", ChatId := " ",
          ContentType := ChatMessage_ContentType.TEXT,
          MessageType := ChatMessage_MessageType.ONE_TO_ONE, Payload := none } 1000 =
        some (GoErr.msg "chatId can't be empty") ↔ (" " : String).length = 0) :=
  nonEmptyIdChecks_no_trim
    { Clock := 1000, Id := " ", Address := "addr" }
    { Clock := 1000, Id := " " }
    { Clock := 1000, Id := " " }
    { Clock := 1000, Timestamp := 5, Text := "hi", ChatId := " ",
      ContentType := ChatMessage_ContentType.TEXT,
      MessageType := ChatMessage_MessageType.ONE_TO_ONE, Payload := none }
    1000 (by decide) (by decide) (by decide) (by decide) (by decide) (by decide)

/-- C3: for a ChatMessage past the clock, Timestamp, Text and ChatId
checks, the validator rejects with one of the three enum errors — unknown
content type, transaction command from a peer, or unknown message type —
iff ContentType is UNKNOWN_CONTENT_TYPE or TRANSACTION_COMMAND, or
MessageType is UNKNOWN_MESSAGE_TYPE or SYSTEM_MESSAGE_PRIVATE_GROUP; the
sticker checks yield no enum error. -/
theorem ValidateReceivedChatMessage_enum_spec (c : ChatMessage) (w : Nat)
    (hc : validateClockValue c.Clock w = none)
    (hts : c.Timestamp ≠ 0)
    (htext : (trimSpace c.Text).length ≠ 0)
    (hchat : c.ChatId.length ≠ 0) :
    (ValidateReceivedChatMessage c w = some (GoErr.msg "unknown content type")
      ∨ ValidateReceivedChatMessage c w =
          some (GoErr.msg "can't receive request address for transaction from others")
      ∨ ValidateReceivedChatMessage c w = some (GoErr.msg "unknown message type"))
    ↔ (c.ContentType = ChatMessage_ContentType.UNKNOWN_CONTENT_TYPE
      ∨ c.ContentType = ChatMessage_ContentType.TRANSACTION_COMMAND
      ∨ c.MessageType = ChatMessage_MessageType.UNKNOWN_MESSAGE_TYPE
      ∨ c.MessageType = ChatMessage_MessageType.SYSTEM_MESSAGE_PRIVATE_GROUP) := by
  rw [ValidateReceivedChatMessage_eq c w hc]
  simp only [if_neg hts, if_neg htext, if_neg hchat]
  by_cases h1 : c.ContentType = ChatMessage_ContentType.UNKNOWN_CONTENT_TYPE
  · simp [h1]
  · by_cases h2 : c.ContentType = ChatMessage_ContentType.TRANSACTION_COMMAND
    · simp [h1, h2]
    · by_cases h3 : c.MessageType = ChatMessage_MessageType.UNKNOWN_MESSAGE_TYPE
          ∨ c.MessageType = ChatMessage_MessageType.SYSTEM_MESSAGE_PRIVATE_GROUP
      · simp [h1, h2, h3]
      · by_cases h4 : c.ContentType = ChatMessage_ContentType.STICKER
        · simp only [if_neg h1, if_neg h2, if_neg h3, if_pos h4]
          rcases stickerContentCheck_cases c with h | h | h <;>
            simp [h, h1, h2, not_or.mp h3]
        · simp [h1, h2, not_or.mp h3, h4]

/-- Witness for C3 at a message with ContentType TRANSACTION_COMMAND and
all earlier checks passing. -/
theorem ValidateReceivedChatMessage_enum_spec_witness :
    (ValidateReceivedChatMessage
        { Clock := 1000, Timestamp := 5, Text := "hi", ChatId := "c1",
          ContentType := ChatMessage_ContentType.TRANSACTION_COMMAND,
          MessageType := ChatMessage_MessageType.ONE_TO_ONE, Payload := none } 1000 =
        some (GoErr.msg "unknown content type")
      ∨ ValidateReceivedChatMessage
        { Clock := 1000, Timestamp := 5, Text := "hi", ChatId := "c1",
          ContentType := ChatMessage_ContentType.TRANSACTION_COMMAND,
          MessageType := ChatMessage_MessageType.ONE_TO_ONE, Payload := none } 1000 =
        some (GoErr.msg "can't receive request address for transaction from others")
      ∨ ValidateReceivedChatMessage
        { Clock := 1000, Timestamp := 5, Text := "hi", ChatId := "c1",
          ContentType := ChatMessage_ContentType.TRANSACTION_COMMAND,
          MessageType := ChatMessage_MessageType.ONE_TO_ONE, Payload := none } 1000 =
        some (GoErr.msg "unknown message type"))
    ↔ (ChatMessage_ContentType.TRANSACTION_COMMAND = ChatMessage_ContentType.UNKNOWN_CONTENT_TYPE
      ∨ ChatMessage_ContentType.TRANSACTION_COMMAND = ChatMessage_ContentType.TRANSACTION_COMMAND
      ∨ ChatMessage_MessageType.ONE_TO_ONE = ChatMessage_MessageType.UNKNOWN_MESSAGE_TYPE
      ∨ ChatMessage_MessageType.ONE_TO_ONE = ChatMessage_MessageType.SYSTEM_MESSAGE_PRIVATE_GROUP) :=
  ValidateReceivedChatMessage_enum_spec
    { Clock := 1000, Timestamp := 5, Text := "hi", ChatId := "c1",
      ContentType := ChatMessage_ContentType.TRANSACTION_COMMAND,
      MessageType := ChatMessage_MessageType.ONE_TO_ONE, Payload := none }
    1000 (by decide) (by decide) (by decide) (by decide)

/-- C4: for a STICKER ChatMessage past every preceding check — an absent
outer payload fails with the "no sticker content" reason; a present payload
whose extracted sticker sub-message is absent fails with the "no sticker
content" reason; a present sticker with an empty Hash fails with the
distinct "sticker hash not set" reason; with all three layers present,
validation succeeds. -/
theorem ValidateReceivedChatMessage_sticker_spec (c : ChatMessage) (w : Nat)
    (hc : validateClockValue c.Clock w = none)
    (hts : c.Timestamp ≠ 0)
    (htext : (trimSpace c.Text).length ≠ 0)
    (hchat : c.ChatId.length ≠ 0)
    (hct : c.ContentType = ChatMessage_ContentType.STICKER)
    (hmt1 : c.MessageType ≠ ChatMessage_MessageType.UNKNOWN_MESSAGE_TYPE)
    (hmt2 : c.MessageType ≠ ChatMessage_MessageType.SYSTEM_MESSAGE_PRIVATE_GROUP) :
    (c.Payload = none →
        ValidateReceivedChatMessage c w = some (GoErr.msg "no sticker content"))
    ∧ (∀ p, c.Payload = some p → c.GetSticker = none →
        ValidateReceivedChatMessage c w = some (GoErr.msg "no sticker content"))
    ∧ (∀ s, c.GetSticker = some s → s.Hash.length = 0 →
        ValidateReceivedChatMessage c w = some (GoErr.msg "sticker hash not set"))
    ∧ (∀ s, c.GetSticker = some s → s.Hash.length ≠ 0 →
        ValidateReceivedChatMessage c w = none)
    ∧ GoErr.msg "sticker hash not set" ≠ GoErr.msg "no sticker content" := by
  have heq : ValidateReceivedChatMessage c w = stickerContentCheck c := by
    rw [ValidateReceivedChatMessage_eq c w hc]
    simp [hts, htext, hchat, hct, hmt1, hmt2]
  have hpayload : ∀ s, c.GetSticker = some s → ∃ p, c.Payload = some p := by
    intro s hs
    unfold ChatMessage.GetSticker at hs
    rcases hp : c.Payload with _ | p
    · rw [hp] at hs; exact Option.noConfusion hs
    · exact ⟨p, rfl⟩
  refine ⟨fun hp => ?_, fun p hp hs => ?_, fun s hs hh => ?_, fun s hs hh => ?_, by decide⟩
  · rw [heq]; simp [stickerContentCheck, hp]
  · rw [heq]; simp [stickerContentCheck, hp, hs]
  · rcases hpayload s hs with ⟨p, hp⟩
    rw [heq]; simp [stickerContentCheck, hp, hs, hh]
  · rcases hpayload s hs with ⟨p, hp⟩
    rw [heq]; simp [stickerContentCheck, hp, hs, hh]

/-- Witness for C4 at a STICKER message whose sticker Hash is empty. -/
theorem ValidateReceivedChatMessage_sticker_spec_witness :
    (stickerHashlessChatMessage.Payload = none →
        ValidateReceivedChatMessage stickerHashlessChatMessage 1000 =
          some (GoErr.msg "no sticker content"))
    ∧ (∀ p, stickerHashlessChatMessage.Payload = some p →
        stickerHashlessChatMessage.GetSticker = none →
        ValidateReceivedChatMessage stickerHashlessChatMessage 1000 =
          some (GoErr.msg "no sticker content"))
    ∧ (∀ s, stickerHashlessChatMessage.GetSticker = some s → s.Hash.length = 0 →
        ValidateReceivedChatMessage stickerHashlessChatMessage 1000 =
          some (GoErr.msg "sticker hash not set"))
    ∧ (∀ s, stickerHashlessChatMessage.GetSticker = some s → s.Hash.length ≠ 0 →
        ValidateReceivedChatMessage stickerHashlessChatMessage 1000 = none)
    ∧ GoErr.msg "sticker hash not set" ≠ GoErr.msg "no sticker content" :=
  ValidateReceivedChatMessage_sticker_spec stickerHashlessChatMessage 1000
    (by decide) (by decide) (by decide) (by decide) (by decide) (by decide) (by decide)

/-- C10: a ChatMessage whose ContentType is not STICKER (nor a disallowed
value) and which passes the clock, Timestamp, Text, ChatId and
message-type checks validates successfully even with an absent Payload:
payload presence is only checked in the STICKER branch. -/
theorem ValidateReceivedChatMessage_nonSticker_noPayload (c : ChatMessage) (w : Nat)
    (hc : validateClockValue c.Clock w = none)
    (hts : c.Timestamp ≠ 0)
    (htext : (trimSpace c.Text).length ≠ 0)
    (hchat : c.ChatId.length ≠ 0)
    (hct1 : c.ContentType ≠ ChatMessage_ContentType.UNKNOWN_CONTENT_TYPE)
    (hct2 : c.ContentType ≠ ChatMessage_ContentType.TRANSACTION_COMMAND)
    (hct3 : c.ContentType ≠ ChatMessage_ContentType.STICKER)
    (hmt1 : c.MessageType ≠ ChatMessage_MessageType.UNKNOWN_MESSAGE_TYPE)
    (hmt2 : c.MessageType ≠ ChatMessage_MessageType.SYSTEM_MESSAGE_PRIVATE_GROUP)
    (hp : c.Payload = none) :
    ValidateReceivedChatMessage c w = none := by
  rw [ValidateReceivedChatMessage_eq c w hc]
  simp [hts, htext, hchat, hct1, hct2, hct3, hmt1, hmt2]

/-- Witness for C10 at a TEXT message with no payload. -/
theorem ValidateReceivedChatMessage_nonSticker_noPayload_witness :
    ValidateReceivedChatMessage
      { Clock := 1000, Timestamp := 5, Text := "hi", ChatId := "c1",
        ContentType := ChatMessage_ContentType.TEXT,
        MessageType := ChatMessage_MessageType.ONE_TO_ONE, Payload := none } 1000 = none :=
  ValidateReceivedChatMessage_nonSticker_noPayload
    { Clock := 1000, Timestamp := 5, Text := "hi", ChatId := "c1",
      ContentType := ChatMessage_ContentType.TEXT,
      MessageType := ChatMessage_MessageType.ONE_TO_ONE, Payload := none }
    1000 (by decide) (by decide) (by decide) (by decide) (by decide) (by decide) (by decide)
    (by decide) (by decide) (by decide)

/-- C8: every validator of this embedding is a pure function of the message
value and the reference timestamp — validating the same inputs twice yields
the same verdict, there being no other state for the result to depend on. -/
theorem validators_deterministic :
    (∀ clock w, validateClockValue clock w = validateClockValue clock w)
    ∧ (∀ (m : MembershipUpdateMessage) t,
        ValidateMembershipUpdateMessage m t = ValidateMembershipUpdateMessage m t)
    ∧ (∀ (m : PairInstallation) w,
        ValidateReceivedPairInstallation m w = ValidateReceivedPairInstallation m w)
    ∧ (∀ (m : SendTransaction) w,
        ValidateReceivedSendTransaction m w = ValidateReceivedSendTransaction m w)
    ∧ (∀ (m : RequestAddressForTransaction) w,
        ValidateReceivedRequestAddressForTransaction m w =
          ValidateReceivedRequestAddressForTransaction m w)
    ∧ (∀ (m : RequestTransaction) w,
        ValidateReceivedRequestTransaction m w = ValidateReceivedRequestTransaction m w)
    ∧ (∀ (m : AcceptRequestAddressForTransaction) w,
        ValidateReceivedAcceptRequestAddressForTransaction m w =
          ValidateReceivedAcceptRequestAddressForTransaction m w)
    ∧ (∀ (m : DeclineRequestAddressForTransaction) w,
        ValidateReceivedDeclineRequestAddressForTransaction m w =
          ValidateReceivedDeclineRequestAddressForTransaction m w)
    ∧ (∀ (m : DeclineRequestTransaction) w,
        ValidateReceivedDeclineRequestTransaction m w =
          ValidateReceivedDeclineRequestTransaction m w)
    ∧ (∀ (m : ChatMessage) w,
        ValidateReceivedChatMessage m w = ValidateReceivedChatMessage m w) :=
  ⟨fun _ _ => rfl, fun _ _ => rfl, fun _ _ => rfl, fun _ _ => rfl, fun _ _ => rfl,
   fun _ _ => rfl, fun _ _ => rfl, fun _ _ => rfl, fun _ _ => rfl, fun _ _ => rfl⟩
